import Mathlib

/-!
Shallow embedding of the authentication / session-identity subsystem of the
BYU cse341 student project (Express + MongoDB + passport Google OAuth).

Embedded source:
- src/models/User.js        : User class (constructor, validateUser, isValidEmail,
                              validate, toDatabase, fromDatabase, toSafeObject)
- src/config/database.js    : passport.deserializeUser and the GoogleStrategy
                              verify callback (lookup / update / create flow)
- src/unnamed/part_002      : auth middleware (requireAuth, requireActiveAuth)

Modelling conventions:
- A JS `undefined` field is `Option.none`.  A missing profile-name string and
  the empty string have identical truthiness in every code path that is
  embedded, so the fields of a Google profile are plain strings.
- JS Date values are Nat timestamps; the current time (`new Date()`) is passed
  explicitly as a `now` argument.
- Mongo ObjectId values are Nat; the driver-assigned `_id` of an insert is
  passed explicitly as a `newId` argument.
- The `users` collection is a list of duck-typed documents in natural order;
  `findOne` is `List.find?`, `updateOne` rewrites the first matching document,
  `insertOne` appends.  Per the spec (sections 4.2, 5, 7) the store enforces a
  uniqueness index on `email`; `insertOne` models an insert failing with a
  duplicate-key error when another document already carries the same email.
- Thrown JS errors are the `JsErr` type; `done(err, x)` results become
  `Except JsErr _` values.
-/

namespace Cse341

/-- Truthiness of a possibly-absent JS string: `undefined` and `""` are falsy. -/
def truthyStr : Option String → Bool
  | none => false
  | some s => s != ""

/-- The data object handed to `new User(...)` / `User.validateUser(...)` in
`src/models/User.js` — a duck-typed JS object whose fields may all be absent. -/
structure UserInput where
  _id : Option Nat := none
  googleId : Option String := none
  email : Option String := none
  firstName : Option String := none
  lastName : Option String := none
  displayName : Option String := none
  profilePicture : Option String := none
  password : Option String := none
  provider : Option String := none
  isActive : Option Bool := none
  lastLogin : Option Nat := none
  createdAt : Option Nat := none
  updatedAt : Option Nat := none
  fromDatabase : Bool := false
  deriving DecidableEq

/-- A constructed `User` instance (`src/models/User.js`, constructor lines 5-25).
After the constructor runs, `provider`, `isActive`, `createdAt` and `updatedAt`
always hold values (defaults applied), the rest keep their input shape. -/
structure User where
  _id : Option Nat
  googleId : Option String
  email : Option String
  firstName : Option String
  lastName : Option String
  displayName : Option String
  profilePicture : Option String
  password : Option String
  provider : String
  isActive : Bool
  lastLogin : Option Nat
  createdAt : Nat
  updatedAt : Nat
  deriving DecidableEq

/-- The `User` constructor (`src/models/User.js` lines 5-25).
`this.password = data.password` runs only under `if (data.password && data.fromDatabase)`;
`this.provider = data.provider || 'google'`; `this.isActive` defaults to `true`
only when the input field is `undefined`; `createdAt`/`updatedAt` default to
`new Date()` (the `now` argument).  ObjectId and Date values are always truthy
in JS, so `if (data._id)` keeps any present id and `|| new Date()` fires only
on absent timestamps. -/
def mkUser (data : UserInput) (now : Nat) : User :=
  { _id := data._id
    googleId := data.googleId
    email := data.email
    firstName := data.firstName
    lastName := data.lastName
    displayName := data.displayName
    profilePicture := data.profilePicture
    password := if truthyStr data.password && data.fromDatabase then data.password else none
    provider := match data.provider with
      | some p => if p != "" then p else "google"
      | none => "google"
    isActive := data.isActive.getD true
    lastLogin := data.lastLogin
    createdAt := data.createdAt.getD now
    updatedAt := data.updatedAt.getD now }

/-- `str.trim().length === 0` for a string already known nonempty: every
character is whitespace. -/
def allWhitespace (s : String) : Bool :=
  s.toList.all Char.isWhitespace

/-- Split a character list at every occurrence of `sep` (the splitting used
to decompose a candidate email at `@` and its domain at `.`). -/
def splitOnChar (sep : Char) : List Char → List (List Char)
  | [] => [[]]
  | c :: rest =>
    let r := splitOnChar sep rest
    if c == sep then [] :: r
    else
      match r with
      | [] => [[c]]
      | g :: gs => (c :: g) :: gs

/-- One chunk of the email regex `[^\s@]+`: nonempty, no whitespace (no `@`
can occur because the chunks are produced by splitting at `@`). -/
def okChunk (s : List Char) : Bool :=
  !s.isEmpty && s.all (fun c => !c.isWhitespace)

/-- The domain part of the regex, `[^\s@]+\.[^\s@]+`: the part after `@` must
decompose around some dot with nonempty text on both sides (the pieces may
themselves contain further dots, since `[^\s@]` admits `.`). -/
def hasInteriorDot (d : List Char) : Bool :=
  match splitOnChar '.' d with
  | [] => false
  | [_] => false
  | piece :: rest => !piece.isEmpty && !(rest.getLastD []).isEmpty

/-- `User.isValidEmail` (`src/models/User.js` lines 76-79): test against
`^[^\s@]+@[^\s@]+\.[^\s@]+$`.  A string matches iff it splits at a unique `@`
into a nonempty whitespace-free local part and a whitespace-free domain part
containing an interior dot. -/
def isValidEmail (email : String) : Bool :=
  match splitOnChar '@' email.toList with
  | [l, d] => okChunk l && okChunk d && hasInteriorDot d
  | _ => false

/-- The `{ isValid, errors }` object returned by `User.validateUser`. -/
structure ValidationResult where
  isValid : Bool
  errors : List String
  deriving DecidableEq

/-- `User.validateUser` (`src/models/User.js` lines 27-74): accumulates every
violated rule into `errors`, in source order, and reports
`isValid = (errors.length === 0)`. -/
def validateUser (userData : UserInput) : ValidationResult :=
  let errors : List String := []
  let errors := match userData.email with
    | none => errors ++ ["Email is required"]
    | some e =>
      if e == "" || allWhitespace e then errors ++ ["Email is required"]
      else if !isValidEmail e then errors ++ ["Invalid email format"]
      else errors
  let errors := match userData.firstName with
    | none => errors ++ ["First name is required"]
    | some f =>
      if f == "" || allWhitespace f then errors ++ ["First name is required"]
      else errors
  let errors := match userData.lastName with
    | none => errors ++ ["Last name is required"]
    | some l =>
      if l == "" || allWhitespace l then errors ++ ["Last name is required"]
      else errors
  let errors :=
    if userData.provider == some "local" then
      match userData.password with
      | none => errors ++ ["Password must be at least 6 characters long"]
      | some p =>
        if p == "" || p.length < 6 then errors ++ ["Password must be at least 6 characters long"]
        else errors
    else if userData.provider == some "google" then
      if truthyStr userData.googleId then errors
      else errors ++ ["Google ID is required for Google authentication"]
    else errors
  let errors := match userData.firstName with
    | some f =>
      if f != "" && f.length > 50 then errors ++ ["First name must be less than 50 characters"]
      else errors
    | none => errors
  let errors := match userData.lastName with
    | some l =>
      if l != "" && l.length > 50 then errors ++ ["Last name must be less than 50 characters"]
      else errors
    | none => errors
  let errors := match userData.displayName with
    | some d =>
      if d != "" && d.length > 100 then errors ++ ["Display name must be less than 100 characters"]
      else errors
    | none => errors
  { isValid := errors.isEmpty, errors := errors }

/-- View a constructed `User` instance back as the duck-typed object that
`this` denotes inside instance methods (`validate()` calls
`User.validateUser(this)`). -/
def User.toInput (u : User) : UserInput :=
  { _id := u._id
    googleId := u.googleId
    email := u.email
    firstName := u.firstName
    lastName := u.lastName
    displayName := u.displayName
    profilePicture := u.profilePicture
    password := u.password
    provider := some u.provider
    isActive := some u.isActive
    lastLogin := u.lastLogin
    createdAt := some u.createdAt
    updatedAt := some u.updatedAt
    fromDatabase := false }

/-- `user.validate()` (`src/models/User.js` lines 112-114). -/
def User.validate (u : User) : ValidationResult :=
  validateUser u.toInput

/-- The safe view object built by `user.toSafeObject()`
(`src/models/User.js` lines 143-157): exactly these eleven fields, nothing else. -/
structure SafeUser where
  _id : Option Nat
  email : Option String
  firstName : Option String
  lastName : Option String
  displayName : Option String
  profilePicture : Option String
  provider : String
  isActive : Bool
  lastLogin : Option Nat
  createdAt : Nat
  updatedAt : Nat
  deriving DecidableEq

/-- `user.toSafeObject()` (`src/models/User.js` lines 143-157). -/
def User.toSafeObject (u : User) : SafeUser :=
  { _id := u._id
    email := u.email
    firstName := u.firstName
    lastName := u.lastName
    displayName := u.displayName
    profilePicture := u.profilePicture
    provider := u.provider
    isActive := u.isActive
    lastLogin := u.lastLogin
    createdAt := u.createdAt
    updatedAt := u.updatedAt }

/-- The document handed to `insertOne` by `user.toDatabase()`: a spread of the
instance, with the password field possibly deleted and no `_id` assigned yet
(the OAuth flow only calls `toDatabase()` on freshly constructed users). -/
structure DbDraft where
  googleId : Option String
  email : Option String
  firstName : Option String
  lastName : Option String
  displayName : Option String
  profilePicture : Option String
  password : Option String
  provider : String
  isActive : Bool
  lastLogin : Option Nat
  createdAt : Nat
  updatedAt : Nat
  deriving DecidableEq

/-- `user.toDatabase()` called with no plaintext password
(`src/models/User.js` lines 121-135), which is how the OAuth flow calls it:
the bcrypt-hashing branch (`provider === 'local' && plainTextPassword`) never
runs, and `delete userData.password` fires when the provider is `google` or
the stored password field is falsy. -/
def User.toDatabase (u : User) : DbDraft :=
  { googleId := u.googleId
    email := u.email
    firstName := u.firstName
    lastName := u.lastName
    displayName := u.displayName
    profilePicture := u.profilePicture
    password := if u.provider == "google" || !truthyStr u.password then none else u.password
    provider := u.provider
    isActive := u.isActive
    lastLogin := u.lastLogin
    createdAt := u.createdAt
    updatedAt := u.updatedAt }

/-- A persisted document of the `users` collection: an assigned `_id` plus
duck-typed fields (pre-existing documents may lack any of them). -/
structure DbUser where
  _id : Nat
  googleId : Option String := none
  email : Option String := none
  firstName : Option String := none
  lastName : Option String := none
  displayName : Option String := none
  profilePicture : Option String := none
  password : Option String := none
  provider : Option String := none
  isActive : Option Bool := none
  lastLogin : Option Nat := none
  createdAt : Option Nat := none
  updatedAt : Option Nat := none
  deriving DecidableEq

/-- The `users` collection in natural (insertion) order. -/
abbrev UsersStore := List DbUser

/-- Spread a stored document into a constructor input with
`fromDatabase: true`, as `User.fromDatabase` does
(`src/models/User.js` lines 138-140). -/
def dbToInput (d : DbUser) : UserInput :=
  { _id := some d._id
    googleId := d.googleId
    email := d.email
    firstName := d.firstName
    lastName := d.lastName
    displayName := d.displayName
    profilePicture := d.profilePicture
    password := d.password
    provider := d.provider
    isActive := d.isActive
    lastLogin := d.lastLogin
    createdAt := d.createdAt
    updatedAt := d.updatedAt
    fromDatabase := true }

/-- `User.fromDatabase(data)` = `new User({ ...data, fromDatabase: true })`. -/
def User.fromDatabase (d : DbUser) (now : Nat) : User :=
  mkUser (dbToInput d) now

/-- `User.fromDatabase` applied to the result of a `findOne`: JS spreads
`null` to the empty object, so a (never actually reached) `findOne` miss
yields `new User({ fromDatabase: true })`. -/
def fromDatabaseOpt (d : Option DbUser) (now : Nat) : User :=
  match d with
  | some doc => User.fromDatabase doc now
  | none => mkUser { fromDatabase := true } now

/-- A thrown / surfaced JS error, by provenance:
`typeError` is a runtime TypeError raised by a property access on `undefined`;
`mongoError` is an error thrown by the store driver (duplicate-key);
`jsError` is a plain `new Error(msg)` created by the application code. -/
inductive JsErr where
  | typeError (msg : String)
  | mongoError (msg : String)
  | jsError (msg : String)
  deriving DecidableEq

/-- The driver duplicate-key message used by the model for the email
uniqueness index. -/
def dupKeyMsg : String := "E11000 duplicate key error: email"

/-- The persisted form of an inserted draft: the draft's fields under the
driver-assigned `_id`. -/
def draftToDoc (d : DbDraft) (newId : Nat) : DbUser :=
  { _id := newId
    googleId := d.googleId
    email := d.email
    firstName := d.firstName
    lastName := d.lastName
    displayName := d.displayName
    profilePicture := d.profilePicture
    password := d.password
    provider := some d.provider
    isActive := some d.isActive
    lastLogin := d.lastLogin
    createdAt := some d.createdAt
    updatedAt := some d.updatedAt }

/-- `insertOne` against the `users` collection with a uniqueness index on
`email` (spec sections 4.2, 5, 7): fails with a duplicate-key error when a
document with the same (present) email already exists, otherwise appends the
document with the driver-assigned id `newId`. -/
def insertOne (s : UsersStore) (d : DbDraft) (newId : Nat) : Except JsErr UsersStore :=
  if d.email.isSome && s.any (fun x => x.email == d.email) then
    .error (.mongoError dupKeyMsg)
  else
    .ok (s ++ [draftToDoc d newId])

/-- The `$or` lookup of the verify callback (`src/config/database.js` lines
92-97): first document whose `googleId` equals the profile id or whose
`email` equals the profile's first email value. -/
def findOneOr (s : UsersStore) (gid em : String) : Option DbUser :=
  s.find? (fun d => d.googleId == some gid || d.email == some em)

/-- `updateOne({_id: tid}, {$set: ...})`: rewrite the first document whose
`_id` is `tid`, leave everything else untouched. -/
def updateFirst (s : UsersStore) (tid : Nat) (f : DbUser → DbUser) : UsersStore :=
  match s with
  | [] => []
  | d :: rest => if d._id == tid then f d :: rest else d :: updateFirst rest tid f

/-- The Google profile shape consumed by the verify callback:
`{ id, emails[].value, name.givenName, name.familyName, displayName,
photos[].value }`.  Absent name strings are modelled as `""` (identical
truthiness in every embedded path). -/
structure Profile where
  id : String
  emails : List String
  givenName : String
  familyName : String
  displayName : String
  photos : List String
  deriving DecidableEq

/-- The `$set` document of the update branch (`src/config/database.js` lines
101-110) applied to the matched document: refreshes `googleId`, names,
picture, provider tag, `lastLogin` and `updatedAt`; `email`, `password`,
`isActive`, `createdAt` and `_id` are untouched. -/
def applyUpdate (p : Profile) (now : Nat) (d : DbUser) : DbUser :=
  { d with googleId := some p.id
           firstName := some p.givenName
           lastName := some p.familyName
           displayName := some p.displayName
           profilePicture := p.photos.head?
           provider := some "google"
           lastLogin := some now
           updatedAt := some now }

/-- The `newUserData` object literal (`src/config/database.js` lines 123-135). -/
def newUserData (p : Profile) (em : String) (now : Nat) : UserInput :=
  { googleId := some p.id
    email := some em
    firstName := some p.givenName
    lastName := some p.familyName
    displayName := some p.displayName
    profilePicture := p.photos.head?
    provider := some "google"
    isActive := some true
    lastLogin := some now
    createdAt := some now
    updatedAt := some now
    fromDatabase := false }

/-- The GoogleStrategy verify callback (`src/config/database.js` lines 87-159),
with an explicit interference hook: `interfere` is the set of store writes
committed by other requests between this request's `findOne` lookup and its
`insertOne` (the only pair of awaits between which another writer can affect
this callback's store operations).  The result is the final store paired with
the `done(err, user)` outcome: `.ok safeUser` for `done(null, safeUser)`,
`.error e` for `done(e, null)` — every thrown error is routed through the
surrounding `try/catch` to `done(error, null)`.

Path by path, following the source:
- `profile.emails[0].value` with no email entry throws a TypeError before any
  store operation;
- a `findOne` hit runs `updateOne` + re-`findOne` + `User.fromDatabase` +
  `toSafeObject` and inserts nothing;
- a `findOne` miss builds `newUserData`, validates it, fails with
  `new Error('User validation failed: ...')` when invalid, otherwise inserts
  `newUser.toDatabase()` and returns the re-fetched document's safe view. -/
def googleVerifyRace (p : Profile) (now newId : Nat) (s : UsersStore)
    (interfere : UsersStore → UsersStore) : UsersStore × Except JsErr SafeUser :=
  match p.emails.head? with
  | none => (s, .error (.typeError "cannot read value of undefined"))
  | some em =>
    match findOneOr s p.id em with
    | some existingUser =>
      let s2 := updateFirst s existingUser._id (applyUpdate p now)
      (s2, .ok ((fromDatabaseOpt (s2.find? (fun d => d._id == existingUser._id)) now).toSafeObject))
    | none =>
      let newUser := mkUser (newUserData p em now) now
      let validation := newUser.validate
      if validation.isValid then
        let s1 := interfere s
        match insertOne s1 newUser.toDatabase newId with
        | .error e => (s1, .error e)
        | .ok s2 =>
          (s2, .ok ((fromDatabaseOpt (s2.find? (fun d => d._id == newId)) now).toSafeObject))
      else
        (s, .error (.jsError ("User validation failed: " ++ String.intercalate ", " validation.errors)))

/-- The verify callback run with no interleaved writers (sequential
execution): the interference hook is the identity. -/
def googleVerify (p : Profile) (now newId : Nat) (s : UsersStore) :
    UsersStore × Except JsErr SafeUser :=
  googleVerifyRace p now newId s (fun st => st)

/-- `passport.deserializeUser` (`src/config/database.js` lines 62-80):
`findOne({_id})`; on a hit, `done(null, User.fromDatabase(doc).toSafeObject())`;
on a miss, `done(null, false)` — modelled as `.ok none`, the absent
(unauthenticated) principal, never an error. -/
def deserializeUser (s : UsersStore) (id : Nat) (now : Nat) : Except JsErr (Option SafeUser) :=
  match s.find? (fun d => d._id == id) with
  | some doc => .ok (some ((User.fromDatabase doc now).toSafeObject))
  | none => .ok none

/-- The JSON body shape produced by the auth middleware in
`src/unnamed/part_002`. -/
structure AuthBody where
  success : Bool
  error : Option String
  message : String
  loginUrl : Option String
  deriving DecidableEq

/-- Outcome of running one Express middleware: pass control downstream
(`next()`), send a response (`res.status(...).json(...)`), or throw a runtime
TypeError. -/
inductive MwOutcome where
  | next
  | respond (status : Nat) (body : AuthBody)
  | throwTypeError (msg : String)
  deriving DecidableEq

/-- The 401 body shared by `requireAuth` and `requireActiveAuth`
(`src/unnamed/part_002` lines 17-22 and 46-51, identical literals). -/
def authRequiredBody : AuthBody :=
  { success := false
    error := some "Authentication required"
    message := "You must be logged in to access this resource. Please authenticate with Google OAuth."
    loginUrl := some "/auth/google" }

/-- The 403 body of `requireActiveAuth` (`src/unnamed/part_002` lines 55-59). -/
def inactiveBody : AuthBody :=
  { success := false
    error := some "Account inactive"
    message := "Your account has been deactivated. Please contact support."
    loginUrl := none }

/-- The request state the middleware reads: `req.isAuthenticated()` and
`req.user` (the deserialized safe principal, set by passport iff the session
resolved). -/
structure Req where
  isAuthenticated : Bool
  user : Option SafeUser
  deriving DecidableEq

/-- `requireAuth` (`src/unnamed/part_002` lines 12-23). -/
def requireAuth (req : Req) : MwOutcome :=
  if req.isAuthenticated then .next
  else .respond 401 authRequiredBody

/-- `requireActiveAuth` (`src/unnamed/part_002` lines 44-63).  Reading
`req.user.isActive` on a request that is authenticated yet carries no user
object would throw in JS; passport never produces that combination. -/
def requireActiveAuth (req : Req) : MwOutcome :=
  if !req.isAuthenticated then
    .respond 401 authRequiredBody
  else
    match req.user with
    | none => .throwTypeError "cannot read isActive of undefined"
    | some u =>
      if !u.isActive then .respond 403 inactiveBody
      else .next

/-- The document the create branch of the verify callback persists for a
profile whose first email value is `em`. -/
def insertedDoc (p : Profile) (em : String) (now newId : Nat) : DbUser :=
  draftToDoc ((mkUser (newUserData p em now) now).toDatabase) newId

/-- The lookup predicate of the verify callback, as a reusable name:
a document belongs to the profile's identity when its `googleId` equals the
profile id or its `email` equals the profile's first email value. -/
def idMatches (gid em : String) (d : DbUser) : Bool :=
  d.googleId == some gid || d.email == some em

/-!  Helper lemmas about the store primitives and the verify callback. -/

theorem validateUser_isValid_eq (d : UserInput) :
    (validateUser d).isValid = (validateUser d).errors.isEmpty := rfl

theorem findOneOr_eq_find? (s : UsersStore) (gid em : String) :
    findOneOr s gid em = s.find? (idMatches gid em) := rfl

theorem googleVerify_eq_race (p : Profile) (now newId : Nat) (s : UsersStore) :
    googleVerify p now newId s = googleVerifyRace p now newId s (fun st => st) := rfl

theorem email_nomatch_of_findOneOr_none {s : UsersStore} {gid em : String}
    (h : findOneOr s gid em = none) :
    s.any (fun x => x.email == some em) = false := by
  rw [List.any_eq_false]
  intro x hx
  have hp : ¬ x.googleId = some gid ∧ ¬ x.email = some em := by
    simpa using List.find?_eq_none.mp h x hx
  simp [hp.2]

theorem idMatches_false_of_findOneOr_none {s : UsersStore} {gid em : String}
    (h : findOneOr s gid em = none) :
    ∀ x ∈ s, idMatches gid em x = false := by
  intro x hx
  have := List.find?_eq_none.mp h x hx
  simpa [idMatches] using this

theorem updateFirst_length (s : UsersStore) (tid : Nat) (f : DbUser → DbUser) :
    (updateFirst s tid f).length = s.length := by
  induction s with
  | nil => rfl
  | cons d rest ih =>
    simp only [updateFirst]
    by_cases h : (d._id == tid) = true
    · simp [h]
    · simp [h, ih]

theorem updateFirst_append_last {s : UsersStore} {x : DbUser} {tid : Nat}
    {f : DbUser → DbUser}
    (h : ∀ d ∈ s, (d._id == tid) = false) (hx : (x._id == tid) = true) :
    updateFirst (s ++ [x]) tid f = s ++ [f x] := by
  induction s with
  | nil => simp [updateFirst, hx]
  | cons d rest ih =>
    have hd := h d (List.mem_cons_self d rest)
    simp only [List.cons_append, updateFirst, hd]
    simp only [Bool.false_eq_true, if_false, List.cons.injEq, true_and]
    exact ih (fun e he => h e (List.mem_cons_of_mem d he))

theorem find?_append_of_none {α : Type} {l1 l2 : List α} {p : α → Bool}
    (h : l1.find? p = none) : (l1 ++ l2).find? p = l2.find? p := by
  rw [List.find?_append, h, Option.none_or]

theorem filter_eq_nil_of_all_false {α : Type} {l : List α} {p : α → Bool}
    (h : ∀ x ∈ l, p x = false) : l.filter p = [] := by
  rw [List.filter_eq_nil_iff]
  intro a ha
  simp [h a ha]

theorem googleVerifyRace_found (p : Profile) (now newId : Nat) (s : UsersStore)
    (interfere : UsersStore → UsersStore) (em : String) (ex : DbUser)
    (hem : p.emails.head? = some em) (hex : findOneOr s p.id em = some ex) :
    googleVerifyRace p now newId s interfere =
      (updateFirst s ex._id (applyUpdate p now),
       .ok ((fromDatabaseOpt ((updateFirst s ex._id (applyUpdate p now)).find?
         (fun d => d._id == ex._id)) now).toSafeObject)) := by
  unfold googleVerifyRace
  rw [hem]
  dsimp only
  rw [hex]

theorem googleVerifyRace_insert (p : Profile) (now newId : Nat) (s : UsersStore)
    (interfere : UsersStore → UsersStore) (em : String)
    (hem : p.emails.head? = some em) (hnone : findOneOr s p.id em = none)
    (hvalid : (mkUser (newUserData p em now) now).validate.isValid = true)
    (hnodup : (interfere s).any (fun x => x.email == some em) = false) :
    googleVerifyRace p now newId s interfere =
      (interfere s ++ [insertedDoc p em now newId],
       .ok ((fromDatabaseOpt ((interfere s ++ [insertedDoc p em now newId]).find?
         (fun d => d._id == newId)) now).toSafeObject)) := by
  unfold googleVerifyRace
  rw [hem]
  dsimp only
  rw [hnone]
  dsimp only
  simp only [hvalid, reduceIte]
  unfold insertOne
  have hde : ((mkUser (newUserData p em now) now).toDatabase).email = some em := rfl
  rw [hde, hnodup]
  simp [insertedDoc]

/-!  Claim theorems. -/

/-- C2: For every User value, regardless of the data it was built from, the
safe view produced by `toSafeObject` consists of exactly the eleven fields
`_id`, `email`, `firstName`, `lastName`, `displayName`, `profilePicture`,
`provider`, `isActive`, `lastLogin`, `createdAt`, `updatedAt` (the `SafeUser`
shape), and carries no information from the password-hash field or the
google id: users differing only in `password` and `googleId` have identical
safe views. -/
theorem toSafeObject_only_safe_fields :
    (∀ u : User, u.toSafeObject =
      { _id := u._id, email := u.email, firstName := u.firstName, lastName := u.lastName,
        displayName := u.displayName, profilePicture := u.profilePicture,
        provider := u.provider, isActive := u.isActive, lastLogin := u.lastLogin,
        createdAt := u.createdAt, updatedAt := u.updatedAt }) ∧
    (∀ (u : User) (pw gid : Option String),
      User.toSafeObject { u with password := pw, googleId := gid } = u.toSafeObject) :=
  ⟨fun _ => rfl, fun _ _ _ => rfl⟩

/-- C10: The User constructor stores a password field only when the input
both carries a (truthy) password and is marked `fromDatabase`; any User
constructed without the `fromDatabase` mark has no password at all, even if a
plaintext password was supplied. -/
theorem mkUser_password_only_from_database (data : UserInput) (now : Nat) :
    (data.fromDatabase = false → (mkUser data now).password = none) ∧
    (∀ pw, (mkUser data now).password = some pw →
      data.fromDatabase = true ∧ data.password = some pw ∧ pw ≠ "") := by
  constructor
  · intro h
    simp [mkUser, h]
  · intro pw h
    simp only [mkUser] at h
    by_cases hb : (truthyStr data.password && data.fromDatabase) = true
    · rw [if_pos hb] at h
      have hand := Bool.and_eq_true_iff.mp hb
      refine ⟨hand.2, h, ?_⟩
      intro hpw
      rw [h, hpw] at hand
      simp [truthyStr] at hand
    · rw [if_neg hb] at h
      exact absurd h (by simp)

/-- C10 witness: a user built from raw (non-database) data with a supplied
plaintext password ends up with no password property. -/
theorem mkUser_password_only_from_database_witness :
    (mkUser { password := some "hunter2", fromDatabase := false } 0).password = none :=
  (mkUser_password_only_from_database { password := some "hunter2", fromDatabase := false } 0).1 rfl

/-- C5: `validateUser` reports an input valid exactly when its accumulated
error list is empty, and returns the complete list of violated rules: the
local-provider input with a 5-character password receives every violated rule
including the minimum-password-length one, and the google-provider input with
no external id receives every violated rule including the missing-google-id
one. -/
theorem validateUser_full_list_and_scenarios :
    (∀ d : UserInput, (validateUser d).isValid = true ↔ (validateUser d).errors = []) ∧
    (validateUser { provider := some "local", password := some "abcde" }).errors =
      ["Email is required", "First name is required", "Last name is required",
       "Password must be at least 6 characters long"] ∧
    (validateUser { provider := some "google" }).errors =
      ["Email is required", "First name is required", "Last name is required",
       "Google ID is required for Google authentication"] := by
  refine ⟨fun d => ?_, rfl, rfl⟩
  rw [validateUser_isValid_eq]
  exact List.isEmpty_iff

/-- C5 witness: the valid/empty-errors equivalence applied to a concrete
input. -/
theorem validateUser_full_list_and_scenarios_witness :
    (validateUser { provider := some "google" }).isValid = true ↔
      (validateUser { provider := some "google" }).errors = [] :=
  validateUser_full_list_and_scenarios.1 { provider := some "google" }

/-- C7: for every session reference id, `deserializeUser` looks the id up in
the users store; a miss yields `done(null, false)` — the absent,
not-authenticated principal, not an error — and a hit yields the redacted
SafeUser view of the stored document. -/
theorem deserializeUser_absent_or_safe (s : UsersStore) (id now : Nat) :
    (s.find? (fun d => d._id == id) = none → deserializeUser s id now = .ok none) ∧
    (∀ doc, s.find? (fun d => d._id == id) = some doc →
      deserializeUser s id now = .ok (some ((User.fromDatabase doc now).toSafeObject))) := by
  constructor
  · intro h
    simp [deserializeUser, h]
  · intro doc h
    simp [deserializeUser, h]

/-- A stored document used by concrete instantiations of the session and
middleware claims. -/
def sampleDoc : DbUser :=
  { _id := 3, googleId := some "g9", email := some "c@y.org", firstName := some "C",
    lastName := some "D", displayName := some "C D", provider := some "google",
    isActive := some true, createdAt := some 11, updatedAt := some 11 }

/-- A concrete active safe principal. -/
def sampleSafe : SafeUser :=
  { _id := some 3, email := some "c@y.org", firstName := some "C", lastName := some "D",
    displayName := some "C D", profilePicture := none, provider := "google",
    isActive := true, lastLogin := none, createdAt := 11, updatedAt := 11 }

/-- The same principal with the active flag cleared. -/
def sampleInactive : SafeUser :=
  { sampleSafe with isActive := false }

/-- C7 witness: a deleted-out-of-band id resolves to the absent principal and
a present id resolves to the safe view, on concrete stores. -/
theorem deserializeUser_absent_or_safe_witness :
    deserializeUser [] 3 0 = .ok none ∧
    deserializeUser [sampleDoc] 3 0 = .ok (some ((User.fromDatabase sampleDoc 0).toSafeObject)) :=
  ⟨(deserializeUser_absent_or_safe [] 3 0).1 rfl,
   (deserializeUser_absent_or_safe [sampleDoc] 3 0).2 sampleDoc rfl⟩

/-- C8: `requireAuth` on an unauthenticated request responds 401 with a body
whose `loginUrl` is the login-initiate path `/auth/google` and never passes
control downstream; on an authenticated request it passes control downstream
and sends no response. -/
theorem requireAuth_gate (req : Req) :
    (req.isAuthenticated = false →
      requireAuth req = .respond 401 authRequiredBody ∧
      authRequiredBody.loginUrl = some "/auth/google" ∧
      requireAuth req ≠ .next) ∧
    (req.isAuthenticated = true → requireAuth req = .next) := by
  constructor
  · intro h
    refine ⟨by simp [requireAuth, h], rfl, by simp [requireAuth, h]⟩
  · intro h
    simp [requireAuth, h]

/-- C8 witness: the 401-with-loginUrl branch at a concrete unauthenticated
request and the pass-through branch at a concrete authenticated request. -/
theorem requireAuth_gate_witness :
    (requireAuth { isAuthenticated := false, user := none } = .respond 401 authRequiredBody ∧
     authRequiredBody.loginUrl = some "/auth/google" ∧
     requireAuth { isAuthenticated := false, user := none } ≠ .next) ∧
    requireAuth { isAuthenticated := true, user := some sampleSafe } = .next :=
  ⟨(requireAuth_gate { isAuthenticated := false, user := none }).1 rfl,
   (requireAuth_gate { isAuthenticated := true, user := some sampleSafe }).2 rfl⟩

/-- C9: `requireActiveAuth` responds 401 on an unauthenticated request,
responds 403 — a status distinct from 401 — on an authenticated principal
whose active flag is false, and passes control downstream otherwise. -/
theorem requireActiveAuth_gate (req : Req) (u : SafeUser) :
    (req.isAuthenticated = false → requireActiveAuth req = .respond 401 authRequiredBody) ∧
    (req.isAuthenticated = true → req.user = some u → u.isActive = false →
      requireActiveAuth req = .respond 403 inactiveBody ∧ (403 : Nat) ≠ 401) ∧
    (req.isAuthenticated = true → req.user = some u → u.isActive = true →
      requireActiveAuth req = .next) := by
  refine ⟨?_, ?_, ?_⟩
  · intro h
    simp [requireActiveAuth, h]
  · intro h1 h2 h3
    refine ⟨by simp [requireActiveAuth, h1, h2, h3], by decide⟩
  · intro h1 h2 h3
    simp [requireActiveAuth, h1, h2, h3]

/-- C1: for every OAuth callback profile with a first email value, the
Reconcile step looks up an existing user by googleId-or-email; on a hit it
rewrites that document in place with the refreshed names, picture, googleId,
provider tag, lastLogin = now and updatedAt = now, inserting nothing (the
store keeps its length, ids and email untouched); on a miss it validates the
new user draft and, when valid, appends exactly one new record, which carries
provider google and isActive = true. -/
theorem googleVerify_reconcile (p : Profile) (em : String) (s : UsersStore) (now newId : Nat)
    (hem : p.emails.head? = some em) :
    (∀ ex, findOneOr s p.id em = some ex →
      googleVerify p now newId s =
        (updateFirst s ex._id (applyUpdate p now),
         .ok ((fromDatabaseOpt ((updateFirst s ex._id (applyUpdate p now)).find?
           (fun d => d._id == ex._id)) now).toSafeObject)) ∧
      (updateFirst s ex._id (applyUpdate p now)).length = s.length ∧
      (applyUpdate p now ex)._id = ex._id ∧
      (applyUpdate p now ex).email = ex.email ∧
      (applyUpdate p now ex).googleId = some p.id ∧
      (applyUpdate p now ex).firstName = some p.givenName ∧
      (applyUpdate p now ex).lastName = some p.familyName ∧
      (applyUpdate p now ex).displayName = some p.displayName ∧
      (applyUpdate p now ex).profilePicture = p.photos.head? ∧
      (applyUpdate p now ex).provider = some "google" ∧
      (applyUpdate p now ex).lastLogin = some now ∧
      (applyUpdate p now ex).updatedAt = some now) ∧
    (findOneOr s p.id em = none →
      (mkUser (newUserData p em now) now).validate.isValid = true →
      googleVerify p now newId s =
        (s ++ [insertedDoc p em now newId],
         .ok ((fromDatabaseOpt ((s ++ [insertedDoc p em now newId]).find?
           (fun d => d._id == newId)) now).toSafeObject)) ∧
      (insertedDoc p em now newId)._id = newId ∧
      (insertedDoc p em now newId).googleId = some p.id ∧
      (insertedDoc p em now newId).email = some em ∧
      (insertedDoc p em now newId).provider = some "google" ∧
      (insertedDoc p em now newId).isActive = some true) := by
  constructor
  · intro ex hex
    exact ⟨googleVerifyRace_found p now newId s _ em ex hem hex,
      updateFirst_length s ex._id _, rfl, rfl, rfl, rfl, rfl, rfl, rfl, rfl, rfl, rfl⟩
  · intro hnone hvalid
    have hnodup : s.any (fun x => x.email == some em) = false :=
      email_nomatch_of_findOneOr_none hnone
    exact ⟨googleVerifyRace_insert p now newId s _ em hem hnone hvalid hnodup,
      rfl, rfl, rfl, rfl, rfl⟩

/-- The concrete profile of the spec scenario:
`{id: g1, emails: [a@x.com], name: {A, B}, displayName: A B, photos: []}`. -/
def gProfile : Profile :=
  { id := "g1", emails := ["a@x.com"], givenName := "A", familyName := "B",
    displayName := "A B", photos := [] }

/-- C1 witness: both branches at concrete inputs — on the empty store the
scenario profile is inserted with provider google and isActive true; on the
store holding that record the same profile takes the update branch. -/
theorem googleVerify_reconcile_witness :
    (googleVerify gProfile 0 1 []).1 = [insertedDoc gProfile "a@x.com" 0 1] ∧
    (insertedDoc gProfile "a@x.com" 0 1).provider = some "google" ∧
    (insertedDoc gProfile "a@x.com" 0 1).isActive = some true ∧
    (googleVerify gProfile 5 2 [insertedDoc gProfile "a@x.com" 0 1]).1 =
      updateFirst [insertedDoc gProfile "a@x.com" 0 1] (insertedDoc gProfile "a@x.com" 0 1)._id
        (applyUpdate gProfile 5) := by
  have h1 := (googleVerify_reconcile gProfile "a@x.com" [] 0 1 rfl).2 rfl (by rfl)
  have h2 := (googleVerify_reconcile gProfile "a@x.com" [insertedDoc gProfile "a@x.com" 0 1]
    5 2 rfl).1 (insertedDoc gProfile "a@x.com" 0 1) rfl
  exact ⟨by simp [h1.1], h1.2.2.2.2.1, h1.2.2.2.2.2, by simp [h2.1]⟩

/-- C3: running the sequential Reconcile step twice for the same profile
leaves exactly one persisted user for that identity: the first run appends
one new record, the second run finds it by googleId-or-email and rewrites
that same record (same _id, lastLogin and updatedAt refreshed) without
adding a document. -/
theorem googleVerify_idempotent (p : Profile) (em : String) (s : UsersStore)
    (t1 t2 f1 f2 : Nat)
    (hem : p.emails.head? = some em)
    (hnone : findOneOr s p.id em = none)
    (hvalid : (mkUser (newUserData p em t1) t1).validate.isValid = true)
    (hfresh : ∀ d ∈ s, (d._id == f1) = false) :
    (googleVerify p t1 f1 s).1 = s ++ [insertedDoc p em t1 f1] ∧
    (googleVerify p t2 f2 (s ++ [insertedDoc p em t1 f1])).1 =
      s ++ [applyUpdate p t2 (insertedDoc p em t1 f1)] ∧
    ((s ++ [insertedDoc p em t1 f1]).filter (idMatches p.id em)).length = 1 ∧
    ((s ++ [applyUpdate p t2 (insertedDoc p em t1 f1)]).filter (idMatches p.id em)).length = 1 ∧
    (s ++ [applyUpdate p t2 (insertedDoc p em t1 f1)]).length =
      (s ++ [insertedDoc p em t1 f1]).length ∧
    (applyUpdate p t2 (insertedDoc p em t1 f1))._id = f1 ∧
    (applyUpdate p t2 (insertedDoc p em t1 f1)).lastLogin = some t2 ∧
    (applyUpdate p t2 (insertedDoc p em t1 f1)).updatedAt = some t2 := by
  have hnodup : s.any (fun x => x.email == some em) = false :=
    email_nomatch_of_findOneOr_none hnone
  have hrun1 := googleVerifyRace_insert p t1 f1 s (fun st => st) em hem hnone hvalid hnodup
  have hmatch : idMatches p.id em (insertedDoc p em t1 f1) = true := by
    simp [idMatches, insertedDoc, draftToDoc, User.toDatabase, mkUser, newUserData]
  have hnomatch := idMatches_false_of_findOneOr_none hnone
  have hnone2 : s.find? (idMatches p.id em) = none := by
    rw [← findOneOr_eq_find?]
    exact hnone
  have hfind2 : findOneOr (s ++ [insertedDoc p em t1 f1]) p.id em =
      some (insertedDoc p em t1 f1) := by
    rw [findOneOr_eq_find?, find?_append_of_none hnone2]
    simp [List.find?, hmatch]
  have hupd : updateFirst (s ++ [insertedDoc p em t1 f1]) (insertedDoc p em t1 f1)._id
      (applyUpdate p t2) = s ++ [applyUpdate p t2 (insertedDoc p em t1 f1)] := by
    apply updateFirst_append_last
    · intro d hd
      exact hfresh d hd
    · simp
  have hrun2 := googleVerifyRace_found p t2 f2 (s ++ [insertedDoc p em t1 f1]) (fun st => st)
    em (insertedDoc p em t1 f1) hem hfind2
  have hfilter1 : (s ++ [insertedDoc p em t1 f1]).filter (idMatches p.id em) =
      [insertedDoc p em t1 f1] := by
    rw [List.filter_append, filter_eq_nil_of_all_false hnomatch]
    simp [hmatch]
  have hmatch2 : idMatches p.id em (applyUpdate p t2 (insertedDoc p em t1 f1)) = true := by
    simp [idMatches, applyUpdate]
  have hfilter2 : (s ++ [applyUpdate p t2 (insertedDoc p em t1 f1)]).filter (idMatches p.id em) =
      [applyUpdate p t2 (insertedDoc p em t1 f1)] := by
    rw [List.filter_append, filter_eq_nil_of_all_false hnomatch]
    simp [hmatch2]
  refine ⟨?_, ?_, by rw [hfilter1]; rfl, by rw [hfilter2]; rfl, by simp, rfl, rfl, rfl⟩
  · rw [googleVerify_eq_race, hrun1]
  · rw [googleVerify_eq_race, hrun2]
    exact hupd

/-- C3 witness: the spec scenario profile submitted twice against the empty
store — one record after the first run, the same single record (updated)
after the second. -/
theorem googleVerify_idempotent_witness :
    (googleVerify gProfile 0 1 []).1 = [insertedDoc gProfile "a@x.com" 0 1] ∧
    (googleVerify gProfile 5 2 [insertedDoc gProfile "a@x.com" 0 1]).1 =
      [applyUpdate gProfile 5 (insertedDoc gProfile "a@x.com" 0 1)] ∧
    ([insertedDoc gProfile "a@x.com" 0 1].filter (idMatches "g1" "a@x.com")).length = 1 ∧
    ([applyUpdate gProfile 5 (insertedDoc gProfile "a@x.com" 0 1)].filter
      (idMatches "g1" "a@x.com")).length = 1 ∧
    (applyUpdate gProfile 5 (insertedDoc gProfile "a@x.com" 0 1))._id = 1 := by
  have h := googleVerify_idempotent gProfile "a@x.com" [] 0 5 1 2 rfl rfl (by rfl)
    (fun d hd => absurd hd (List.not_mem_nil d))
  exact ⟨h.1, h.2.1, h.2.2.1, h.2.2.2.1, h.2.2.2.2.2.1⟩

/-- The record a concurrent callback for the same identity persists between
this request's lookup and its insert. -/
def raceDoc : DbUser :=
  { _id := 7, googleId := some "g1", email := some "a@x.com", provider := some "google" }

/-- The interference of that concurrent callback: its insert commits first. -/
def raceInterfere : UsersStore → UsersStore := fun st => st ++ [raceDoc]

/-- C4 counterexample: when a concurrent creation of the same identity makes
the insert fail with the store uniqueness violation, the callback result is
the raw duplicate-key store error handed to done — not a re-resolution of
the existing record (no success outcome at all). -/
theorem googleVerify_race_counterexample :
    (googleVerifyRace gProfile 0 1 [] raceInterfere).2 =
      .error (.mongoError dupKeyMsg) ∧
    ∀ su, (googleVerifyRace gProfile 0 1 [] raceInterfere).2 ≠ .ok su := by
  constructor
  · rfl
  · intro su h
    have hx : (googleVerifyRace gProfile 0 1 [] raceInterfere).2 =
        .error (.mongoError dupKeyMsg) := rfl
    rw [hx] at h
    exact absurd h (by simp)

/-- C4 amended: when the insert of a new user during Reconcile fails with the
store uniqueness violation (a concurrent creation of the same identity), the
catch-all handler of the verify callback surfaces the raw store error to the
caller through done(error, null); it does not retry the lookup or resolve the
already-existing record. -/
theorem googleVerifyRace_dup_surfaces (p : Profile) (now newId : Nat) (s : UsersStore)
    (interfere : UsersStore → UsersStore) (em : String)
    (hem : p.emails.head? = some em) (hnone : findOneOr s p.id em = none)
    (hvalid : (mkUser (newUserData p em now) now).validate.isValid = true)
    (hdup : (interfere s).any (fun x => x.email == some em) = true) :
    googleVerifyRace p now newId s interfere =
      (interfere s, .error (.mongoError dupKeyMsg)) := by
  unfold googleVerifyRace
  rw [hem]
  dsimp only
  rw [hnone]
  dsimp only
  simp only [hvalid, reduceIte]
  unfold insertOne
  have hde : ((mkUser (newUserData p em now) now).toDatabase).email = some em := rfl
  rw [hde, hdup]
  simp

/-- C4 amended witness: the concrete race — the concurrent record committed
between lookup and insert — produces the surfaced duplicate-key error. -/
theorem googleVerifyRace_dup_surfaces_witness :
    googleVerifyRace gProfile 0 1 [] raceInterfere =
      ([raceDoc], .error (.mongoError dupKeyMsg)) :=
  googleVerifyRace_dup_surfaces gProfile 0 1 [] raceInterfere "a@x.com" rfl rfl
    (by rfl) (by rfl)

/-- The scenario profile with its email list empty. -/
def noEmailProfile : Profile :=
  { id := "g1", emails := [], givenName := "A", familyName := "B",
    displayName := "A B", photos := [] }

/-- C6 counterexample: on a profile lacking any email entry the exchange
fails with a raw TypeError — not with the structured validation failure the
claim names (no new-Error outcome carrying a validation message, and no
success). -/
theorem googleVerify_no_email_counterexample :
    (googleVerify noEmailProfile 0 1 []).2 =
      .error (.typeError "cannot read value of undefined") ∧
    (∀ msg, (googleVerify noEmailProfile 0 1 []).2 ≠ .error (.jsError msg)) ∧
    (∀ su, (googleVerify noEmailProfile 0 1 []).2 ≠ .ok su) := by
  refine ⟨rfl, ?_, ?_⟩
  · intro msg h
    have hx : (googleVerify noEmailProfile 0 1 []).2 =
        .error (.typeError "cannot read value of undefined") := rfl
    rw [hx] at h
    exact absurd h (by simp)
  · intro su h
    have hx : (googleVerify noEmailProfile 0 1 []).2 =
        .error (.typeError "cannot read value of undefined") := rfl
    rw [hx] at h
    exact absurd h (by simp)

/-- C6 amended: if the provider profile lacks any email entry, the verify
callback throws a TypeError while reading the first email value — surfaced
via done(error, null) as a raw exception, not a structured ValidationError —
and no user record is created or updated (the store is returned unchanged). -/
theorem googleVerify_no_email_raw_error (p : Profile) (now newId : Nat) (s : UsersStore)
    (h : p.emails = []) :
    googleVerify p now newId s =
      (s, .error (.typeError "cannot read value of undefined")) := by
  unfold googleVerify googleVerifyRace
  rw [h]
  rfl

/-- C6 amended witness: the concrete email-less profile against the empty
store. -/
theorem googleVerify_no_email_raw_error_witness :
    googleVerify noEmailProfile 0 1 [] =
      ([], .error (.typeError "cannot read value of undefined")) :=
  googleVerify_no_email_raw_error noEmailProfile 0 1 [] rfl

/-- C9 witness: all three branches at concrete requests. -/
theorem requireActiveAuth_gate_witness :
    requireActiveAuth { isAuthenticated := false, user := none } = .respond 401 authRequiredBody ∧
    (requireActiveAuth { isAuthenticated := true, user := some sampleInactive } =
        .respond 403 inactiveBody ∧ (403 : Nat) ≠ 401) ∧
    requireActiveAuth { isAuthenticated := true, user := some sampleSafe } = .next :=
  ⟨(requireActiveAuth_gate { isAuthenticated := false, user := none } sampleSafe).1 rfl,
   (requireActiveAuth_gate { isAuthenticated := true, user := some sampleInactive }
      sampleInactive).2.1 rfl rfl rfl,
   (requireActiveAuth_gate { isAuthenticated := true, user := some sampleSafe }
      sampleSafe).2.2 rfl rfl rfl⟩

end Cse341
